import Mathlib

/-!
Verification of the technical-analysis core of `analizador_de_acciones`
(`index.py`): the indicator pipeline `calcular_indicadores` and the
rule-based recommendation engine `generar_recomendacion`.

The numeric cells of the pandas DataFrame are IEEE-754 doubles; here the
value domain is modelled exactly by `FV`: a finite rational, a signed
infinity, or NaN.  The operations below reproduce the float semantics the
source relies on: comparisons against NaN are false, division of a
positive number by zero yields +inf, `0/0` yields NaN, and
`100 - 100/(1 + inf) = 100`.
-/

/-- A float cell of the DataFrame: NaN, a signed infinity (`inf true` is
+infinity), or a finite value, modelled as an exact rational. -/
inductive FV where
  | nan : FV
  | inf : Bool → FV
  | fin : ℚ → FV
deriving DecidableEq

/-- Float negation. -/
def fneg : FV → FV
  | FV.nan => FV.nan
  | FV.inf b => FV.inf (!b)
  | FV.fin q => FV.fin (-q)

/-- Float addition (NaN absorbs; opposite infinities give NaN). -/
def fadd : FV → FV → FV
  | FV.nan, _ => FV.nan
  | _, FV.nan => FV.nan
  | FV.inf a, FV.inf b => if a = b then FV.inf a else FV.nan
  | FV.inf a, FV.fin _ => FV.inf a
  | FV.fin _, FV.inf b => FV.inf b
  | FV.fin a, FV.fin b => FV.fin (a + b)

/-- Float subtraction. -/
def fsub (x y : FV) : FV := fadd x (fneg y)

/-- Float multiplication. -/
def fmul : FV → FV → FV
  | FV.nan, _ => FV.nan
  | _, FV.nan => FV.nan
  | FV.inf a, FV.inf b => FV.inf (a = b)
  | FV.inf a, FV.fin q => if q = 0 then FV.nan else if 0 < q then FV.inf a else FV.inf (!a)
  | FV.fin q, FV.inf b => if q = 0 then FV.nan else if 0 < q then FV.inf b else FV.inf (!b)
  | FV.fin a, FV.fin b => FV.fin (a * b)

/-- Float division: `x/0` is a signed infinity for nonzero finite `x`
(zero is unsigned here, as +0), `0/0` is NaN, finite/inf is 0. -/
def fdiv : FV → FV → FV
  | FV.nan, _ => FV.nan
  | _, FV.nan => FV.nan
  | FV.inf _, FV.inf _ => FV.nan
  | FV.inf a, FV.fin q => if q = 0 then FV.inf a else if 0 < q then FV.inf a else FV.inf (!a)
  | FV.fin _, FV.inf _ => FV.fin 0
  | FV.fin a, FV.fin b =>
      if b = 0 then (if a = 0 then FV.nan else if 0 < a then FV.inf true else FV.inf false)
      else FV.fin (a / b)

/-- Float strict greater-than: any comparison with NaN is false. -/
def fgt : FV → FV → Bool
  | FV.nan, _ => false
  | _, FV.nan => false
  | FV.inf a, FV.inf b => a && !b
  | FV.inf a, FV.fin _ => a
  | FV.fin _, FV.inf b => !b
  | FV.fin x, FV.fin y => decide (y < x)

/-- Float strict less-than, via `fgt` with the operands swapped. -/
def flt (x y : FV) : Bool := fgt y x

/-- Sum of a window, as pandas sums it: NaN propagates. -/
def rollSum (xs : List FV) : FV := xs.foldl fadd (FV.fin 0)

/-- `Series.rolling(n).mean()` with the default `min_periods = n`: the
cell at `i` is the mean of the `n` trailing values (inclusive of `i`)
once `n` values exist, and NaN before that. -/
def rollingMean (n : ℕ) (xs : List FV) : List FV :=
  (List.range xs.length).map fun i =>
    if i + 1 < n then FV.nan
    else fdiv (rollSum ((xs.drop (i + 1 - n)).take n)) (FV.fin n)

/-- `Series.diff()`: NaN at index 0, else the difference with the
previous cell. -/
def diffList (xs : List FV) : List FV :=
  (List.range xs.length).map fun i =>
    if i = 0 then FV.nan else fsub (xs.getD i FV.nan) (xs.getD (i - 1) FV.nan)

/-- `delta.where(delta > 0, 0.0)`: keep the cell where the float
comparison holds, else 0 (NaN cells compare false, hence become 0). -/
def gainList (delta : List FV) : List FV :=
  delta.map fun d => if fgt d (FV.fin 0) then d else FV.fin 0

/-- `-delta.where(delta < 0, 0.0)`. -/
def lossList (delta : List FV) : List FV :=
  delta.map fun d => fneg (if flt d (FV.fin 0) then d else FV.fin 0)

/-- `gain.rolling(14).mean()` of the gains of the price column. -/
def avgGainList (precio : List FV) : List FV :=
  rollingMean 14 (gainList (diffList precio))

/-- `loss.rolling(14).mean()` of the losses of the price column. -/
def avgLossList (precio : List FV) : List FV :=
  rollingMean 14 (lossList (diffList precio))

/-- `rs = avg_gain / avg_loss; RSI = 100 - (100 / (1 + rs))`,
elementwise under float semantics. -/
def rsiList (precio : List FV) : List FV :=
  List.zipWith
    (fun g l => fsub (FV.fin 100) (fdiv (FV.fin 100) (fadd (FV.fin 1) (fdiv g l))))
    (avgGainList precio) (avgLossList precio)

/-- `Series.ewm(span, adjust=False).mean()` after the seed: each cell is
`alpha * x + (1 - alpha) * prev`. -/
def ewmFrom (alpha : ℚ) : FV → List FV → List FV
  | _, [] => []
  | prev, x :: rest =>
      let e := fadd (fmul (FV.fin alpha) x) (fmul (FV.fin (1 - alpha)) prev)
      e :: ewmFrom alpha e rest

/-- `Series.ewm(span=n, adjust=False).mean()`: seeded by the first cell,
smoothing factor `2 / (n + 1)`. -/
def ewmList (n : ℕ) (xs : List FV) : List FV :=
  match xs with
  | [] => []
  | x :: rest => x :: ewmFrom (2 / (n + 1 : ℚ)) x rest

/-- The indicator flags dictionary `{"sma": _, "rsi": _, "macd": _}`. -/
structure Indicadores where
  sma : Bool
  rsi : Bool
  macd : Bool
deriving DecidableEq

/-- The DataFrame passed around the app: a `Precio` column, an optional
`Volumen` column, and the optional derived columns (absent until the
corresponding flag's branch of `calcular_indicadores` runs). -/
structure DataFrame where
  precio : List FV
  volumen : Option (List FV)
  sma50 : Option (List FV)
  sma200 : Option (List FV)
  rsi : Option (List FV)
  macd : Option (List FV)
  signal : Option (List FV)
deriving DecidableEq

/-- The preparation step of the app: `data = df[[price_col]].copy()`,
renamed to `Precio`, with the `Volumen` column attached when present.
Prices (and volumes) arrive as ordinary (non-NaN) numbers. -/
def mkData (ps : List ℚ) (vol : Option (List ℚ)) : DataFrame :=
  { precio := ps.map FV.fin
    volumen := vol.map (List.map FV.fin)
    sma50 := none
    sma200 := none
    rsi := none
    macd := none
    signal := none }

/-- `calcular_indicadores(data, indicadores)`. -/
def calcular_indicadores (data : DataFrame) (indicadores : Indicadores) : DataFrame :=
  let data :=
    if indicadores.sma then
      { data with
        sma50 := some (rollingMean 50 data.precio)
        sma200 := some (rollingMean 200 data.precio) }
    else data
  let data :=
    if indicadores.rsi then { data with rsi := some (rsiList data.precio) } else data
  let data :=
    if indicadores.macd then
      let macd := List.zipWith fsub (ewmList 12 data.precio) (ewmList 26 data.precio)
      { data with macd := some macd, signal := some (ewmList 9 macd) }
    else data
  data

/-- `column.iloc[-1]` guarded by the bare `except`: `none` when the
column is absent (KeyError) or empty (IndexError), else its last cell. -/
def lastCol (c : Option (List FV)) : Option FV := c.bind fun xs => xs.getLast?

/-- The scoring body of `generar_recomendacion`: sequentially apply the
three if/elif rule groups to the empty reason list and score 0. -/
def puntuar (p sma50 sma200 rsi : FV) : List String × ℤ :=
  let condiciones : List String := []
  let score : ℤ := 0
  let r1 : List String × ℤ :=
    if fgt p sma200 && fgt sma50 sma200 then
      (condiciones ++ ["Tendencia alcista (Precio > SMA200 > SMA50)"], score + 1)
    else if flt p sma200 && flt sma50 sma200 then
      (condiciones ++ ["Tendencia bajista (Precio < SMA200 < SMA50)"], score - 1)
    else (condiciones, score)
  let r2 : List String × ℤ :=
    if fgt sma50 sma200 then (r1.1 ++ ["Golden Cross (SMA50 > SMA200)"], r1.2 + 1)
    else if flt sma50 sma200 then (r1.1 ++ ["Death Cross (SMA50 < SMA200)"], r1.2 - 1)
    else r1
  let r3 : List String × ℤ :=
    if fgt rsi (FV.fin 70) then (r2.1 ++ ["RSI alto (>70) - posible sobrecompra"], r2.2 - 1)
    else if flt rsi (FV.fin 30) then (r2.1 ++ ["RSI bajo (<30) - posible sobreventa"], r2.2 + 1)
    else r2
  r3

/-- `generar_recomendacion(data)`: extract the four latest values under
the bare `except` (any failure yields the fallback), then score and
classify. -/
def generar_recomendacion (data : DataFrame) : String × String × List String :=
  match data.precio.getLast?, lastCol data.sma50, lastCol data.sma200, lastCol data.rsi with
  | some p, some sma50, some sma200, some rsi =>
      let sc := puntuar p sma50 sma200 rsi
      if sc.2 ≥ 2 then ("COMPRA", "buy", sc.1)
      else if sc.2 ≤ -2 then ("VENTA", "sell", sc.1)
      else ("MANTENER", "hold", sc.1)
  | _, _, _, _ =>
      ("MANTENER", "hold", ["Faltan indicadores para generar una recomendación."])

/-! ### Basic facts about the float domain -/

theorem fgt_fin (a b : ℚ) : fgt (FV.fin a) (FV.fin b) = decide (b < a) := rfl

theorem flt_fin (a b : ℚ) : flt (FV.fin a) (FV.fin b) = decide (a < b) := rfl

theorem fadd_fin (a b : ℚ) : fadd (FV.fin a) (FV.fin b) = FV.fin (a + b) := rfl

theorem fsub_fin (a b : ℚ) : fsub (FV.fin a) (FV.fin b) = FV.fin (a - b) := by
  simp [fsub, fadd, fneg, sub_eq_add_neg]

theorem fdiv_fin (a b : ℚ) (hb : b ≠ 0) : fdiv (FV.fin a) (FV.fin b) = FV.fin (a / b) := by
  simp [fdiv, hb]

theorem foldl_fadd_fin (qs : List ℚ) :
    ∀ a : ℚ, (qs.map FV.fin).foldl fadd (FV.fin a) = FV.fin (a + qs.sum) := by
  induction qs with
  | nil => intro a; simp
  | cons q qs ih => intro a; simp [fadd_fin, ih, add_assoc]

theorem rollSum_fin (qs : List ℚ) : rollSum (qs.map FV.fin) = FV.fin qs.sum := by
  simpa using foldl_fadd_fin qs 0

/-! ### Cells of the rolling mean -/

theorem rollingMean_length (n : ℕ) (xs : List FV) :
    (rollingMean n xs).length = xs.length := by
  simp [rollingMean]

theorem rollingMean_cell (n : ℕ) (xs : List FV) (i : ℕ) (hi : i < xs.length) :
    (rollingMean n xs)[i]? =
      some (if i + 1 < n then FV.nan
            else fdiv (rollSum ((xs.drop (i + 1 - n)).take n)) (FV.fin n)) := by
  simp [rollingMean, List.getElem?_map, List.getElem?_range hi]

theorem fneg_fin (a : ℚ) : fneg (FV.fin a) = FV.fin (-a) := rfl

theorem rollingMean_fin_cell (n : ℕ) (hn : 0 < n) (qs : List ℚ) (i : ℕ)
    (hi : i < qs.length) :
    (rollingMean n (qs.map FV.fin))[i]? =
      some (if i + 1 < n then FV.nan
            else FV.fin (((qs.drop (i + 1 - n)).take n).sum / n)) := by
  rw [rollingMean_cell n _ i (by simpa using hi)]
  rw [← List.map_drop, ← List.map_take, rollSum_fin]
  have hn' : ((n : ℚ)) ≠ 0 := by exact_mod_cast hn.ne'
  by_cases h : i + 1 < n <;> simp [h, fdiv_fin _ _ hn']

/-! ### The gain and loss series, characterized over the rationals -/

/-- The gain series `delta.where(delta > 0, 0.0)` over exact prices:
0 at index 0 (the NaN first difference compares false) and the positive
part of the difference elsewhere. -/
def gainQ (ps : List ℚ) : List ℚ :=
  (List.range ps.length).map fun i =>
    if i = 0 then 0 else max (ps.getD i 0 - ps.getD (i - 1) 0) 0

/-- The loss series `-delta.where(delta < 0, 0.0)` over exact prices. -/
def lossQ (ps : List ℚ) : List ℚ :=
  (List.range ps.length).map fun i =>
    if i = 0 then 0 else max (ps.getD (i - 1) 0 - ps.getD i 0) 0

theorem getD_map_fin (ps : List ℚ) (i : ℕ) (hi : i < ps.length) :
    (ps.map FV.fin).getD i FV.nan = FV.fin (ps.getD i 0) := by
  rw [List.getD_eq_getElem?_getD, List.getD_eq_getElem?_getD, List.getElem?_map,
    List.getElem?_eq_getElem hi]
  rfl

theorem gainList_diff_fin (ps : List ℚ) :
    gainList (diffList (ps.map FV.fin)) = (gainQ ps).map FV.fin := by
  unfold gainList diffList gainQ
  rw [List.map_map, List.length_map, List.map_map]
  refine List.map_congr_left fun i hi => ?_
  have hi' : i < ps.length := List.mem_range.mp hi
  rcases Nat.eq_zero_or_pos i with h0 | h0
  · subst h0; simp [fgt]
  · have h1 : i - 1 < ps.length := lt_of_le_of_lt (Nat.sub_le i 1) hi'
    simp only [Function.comp_apply, if_neg h0.ne', getD_map_fin ps i hi',
      getD_map_fin ps (i - 1) h1, fsub_fin, fgt_fin, decide_eq_true_eq]
    split_ifs with h
    · rw [max_eq_left h.le]
    · rw [max_eq_right (not_lt.mp h)]

theorem lossList_diff_fin (ps : List ℚ) :
    lossList (diffList (ps.map FV.fin)) = (lossQ ps).map FV.fin := by
  unfold lossList diffList lossQ
  rw [List.map_map, List.length_map, List.map_map]
  refine List.map_congr_left fun i hi => ?_
  have hi' : i < ps.length := List.mem_range.mp hi
  rcases Nat.eq_zero_or_pos i with h0 | h0
  · subst h0; simp [flt, fgt, fneg]
  · have h1 : i - 1 < ps.length := lt_of_le_of_lt (Nat.sub_le i 1) hi'
    simp only [Function.comp_apply, if_neg h0.ne', getD_map_fin ps i hi',
      getD_map_fin ps (i - 1) h1, fsub_fin, flt_fin, decide_eq_true_eq]
    split_ifs with h
    · rw [fneg_fin, neg_sub, max_eq_left (by linarith)]
    · rw [fneg_fin, neg_zero, max_eq_right (by linarith [not_lt.mp h])]

theorem gainQ_length (ps : List ℚ) : (gainQ ps).length = ps.length := by
  simp [gainQ]

theorem lossQ_length (ps : List ℚ) : (lossQ ps).length = ps.length := by
  simp [lossQ]

theorem gainQ_nonneg (ps : List ℚ) : ∀ x ∈ gainQ ps, 0 ≤ x := by
  intro x hx
  simp only [gainQ, List.mem_map, List.mem_range] at hx
  obtain ⟨i, _, rfl⟩ := hx
  split
  · exact le_refl 0
  · exact le_max_right _ _

theorem lossQ_nonneg (ps : List ℚ) : ∀ x ∈ lossQ ps, 0 ≤ x := by
  intro x hx
  simp only [lossQ, List.mem_map, List.mem_range] at hx
  obtain ⟨i, _, rfl⟩ := hx
  split
  · exact le_refl 0
  · exact le_max_right _ _

/-! ### The RSI cells -/

/-- The trailing 14-period average gain at index `i`, over the rationals. -/
def gAvg (ps : List ℚ) (i : ℕ) : ℚ := (((gainQ ps).drop (i + 1 - 14)).take 14).sum / 14

/-- The trailing 14-period average loss at index `i`, over the rationals. -/
def lAvg (ps : List ℚ) (i : ℕ) : ℚ := (((lossQ ps).drop (i + 1 - 14)).take 14).sum / 14

theorem gAvg_nonneg (ps : List ℚ) (i : ℕ) : 0 ≤ gAvg ps i := by
  apply div_nonneg _ (by norm_num)
  refine List.sum_nonneg fun x hx => ?_
  exact gainQ_nonneg ps x (List.drop_subset _ _ (List.take_subset _ _ hx))

theorem lAvg_nonneg (ps : List ℚ) (i : ℕ) : 0 ≤ lAvg ps i := by
  apply div_nonneg _ (by norm_num)
  refine List.sum_nonneg fun x hx => ?_
  exact lossQ_nonneg ps x (List.drop_subset _ _ (List.take_subset _ _ hx))

theorem avgGain_cell (ps : List ℚ) (i : ℕ) (hi : i < ps.length) :
    (avgGainList (ps.map FV.fin))[i]? =
      some (if i + 1 < 14 then FV.nan else FV.fin (gAvg ps i)) := by
  unfold avgGainList gAvg
  rw [gainList_diff_fin,
    rollingMean_fin_cell 14 (by norm_num) _ i (by simp [gainQ_length, hi])]
  norm_num

theorem avgLoss_cell (ps : List ℚ) (i : ℕ) (hi : i < ps.length) :
    (avgLossList (ps.map FV.fin))[i]? =
      some (if i + 1 < 14 then FV.nan else FV.fin (lAvg ps i)) := by
  unfold avgLossList lAvg
  rw [lossList_diff_fin,
    rollingMean_fin_cell 14 (by norm_num) _ i (by simp [lossQ_length, hi])]
  norm_num

theorem zipWith_cell (f : FV → FV → FV) (as bs : List FV) (i : ℕ) (a b : FV)
    (ha : as[i]? = some a) (hb : bs[i]? = some b) :
    (List.zipWith f as bs)[i]? = some (f a b) := by
  induction as generalizing bs i with
  | nil => simp at ha
  | cons x xs ih =>
    cases bs with
    | nil => simp at hb
    | cons y ys =>
      cases i with
      | zero =>
        simp only [List.getElem?_cons_zero] at ha hb
        simp [Option.some.inj ha, Option.some.inj hb]
      | succ j =>
        simp only [List.getElem?_cons_succ] at ha hb
        simpa using ih ys j ha hb

theorem rsiExpr_nan_left (x : FV) :
    fsub (FV.fin 100) (fdiv (FV.fin 100) (fadd (FV.fin 1) (fdiv FV.nan x))) = FV.nan := by
  cases x <;> rfl

theorem rsiExpr_cases (g l : ℚ) (hg : 0 ≤ g) (hl : 0 ≤ l) :
    fsub (FV.fin 100) (fdiv (FV.fin 100) (fadd (FV.fin 1) (fdiv (FV.fin g) (FV.fin l)))) =
      if l = 0 then (if g = 0 then FV.nan else FV.fin 100)
      else FV.fin (100 - 100 / (1 + g / l)) := by
  by_cases hl0 : l = 0
  · subst hl0
    rw [if_pos rfl]
    by_cases hg0 : g = 0
    · subst hg0; rfl
    · have hgpos : 0 < g := hg.lt_of_ne (Ne.symm hg0)
      rw [if_neg hg0]
      have e1 : fdiv (FV.fin g) (FV.fin 0) = FV.inf true := by
        simp [fdiv, hg0, hgpos]
      rw [e1]
      show fsub (FV.fin 100) (FV.fin 0) = FV.fin 100
      rw [fsub_fin]; norm_num
  · have hden : (1:ℚ) + g / l ≠ 0 := by positivity
    rw [fdiv_fin _ _ hl0, fadd_fin, fdiv_fin _ _ hden, fsub_fin, if_neg hl0]

theorem avgGainList_length (xs : List FV) : (avgGainList xs).length = xs.length := by
  simp [avgGainList, rollingMean_length, gainList, diffList]

theorem avgLossList_length (xs : List FV) : (avgLossList xs).length = xs.length := by
  simp [avgLossList, rollingMean_length, lossList, diffList]

theorem rsiList_length (xs : List FV) : (rsiList xs).length = xs.length := by
  simp [rsiList, avgGainList_length, avgLossList_length]

theorem rsiList_cell (ps : List ℚ) (i : ℕ) (hi : i < ps.length) :
    (rsiList (ps.map FV.fin))[i]? =
      some (if i + 1 < 14 then FV.nan
            else if lAvg ps i = 0 then (if gAvg ps i = 0 then FV.nan else FV.fin 100)
            else FV.fin (100 - 100 / (1 + gAvg ps i / lAvg ps i))) := by
  unfold rsiList
  rw [zipWith_cell _ _ _ i _ _ (avgGain_cell ps i hi) (avgLoss_cell ps i hi)]
  by_cases h14 : i + 1 < 14
  · simp only [if_pos h14]
    exact congrArg some (rsiExpr_nan_left _)
  · simp only [if_neg h14]
    exact congrArg some (rsiExpr_cases _ _ (gAvg_nonneg ps i) (lAvg_nonneg ps i))

/-! ### Claims C3 and C4: the RSI saturation behavior -/

/-- Claim C4: at every index at which the RSI column holds a (finite)
value, that value lies in [0, 100], and it equals 100 exactly when the
trailing 14-period average loss is 0 and the trailing 14-period average
gain is positive at that index. -/
theorem rsi_range_saturation (ps : List ℚ) (i : ℕ) (q : ℚ)
    (h : (rsiList (ps.map FV.fin))[i]? = some (FV.fin q)) :
    0 ≤ q ∧ q ≤ 100 ∧
      (q = 100 ↔ (avgLossList (ps.map FV.fin))[i]? = some (FV.fin 0) ∧
        ∃ g, (avgGainList (ps.map FV.fin))[i]? = some (FV.fin g) ∧ 0 < g) := by
  have hi : i < ps.length := by
    by_contra hle
    rw [List.getElem?_eq_none_iff.mpr
      (by simpa [rsiList_length] using le_of_not_lt hle)] at h
    exact Option.noConfusion h
  rw [rsiList_cell ps i hi] at h
  replace h := Option.some.inj h
  by_cases h14 : i + 1 < 14
  · rw [if_pos h14] at h; exact FV.noConfusion h
  · rw [if_neg h14] at h
    by_cases hl0 : lAvg ps i = 0
    · rw [if_pos hl0] at h
      by_cases hg0 : gAvg ps i = 0
      · rw [if_pos hg0] at h; exact FV.noConfusion h
      · rw [if_neg hg0] at h
        have hq : q = 100 := (FV.fin.inj h).symm
        subst hq
        refine ⟨by norm_num, le_refl _, ?_⟩
        constructor
        · intro _
          refine ⟨?_, gAvg ps i, ?_, (gAvg_nonneg ps i).lt_of_ne (Ne.symm hg0)⟩
          · rw [avgLoss_cell ps i hi, if_neg h14, hl0]
          · rw [avgGain_cell ps i hi, if_neg h14]
        · intro _; rfl
    · rw [if_neg hl0] at h
      have hq : q = 100 - 100 / (1 + gAvg ps i / lAvg ps i) := (FV.fin.inj h).symm
      have hlpos : 0 < lAvg ps i := (lAvg_nonneg ps i).lt_of_ne (Ne.symm hl0)
      have hrs : 0 ≤ gAvg ps i / lAvg ps i := div_nonneg (gAvg_nonneg ps i) hlpos.le
      have hden : (1:ℚ) ≤ 1 + gAvg ps i / lAvg ps i := by linarith
      have hdivle : 100 / (1 + gAvg ps i / lAvg ps i) ≤ 100 :=
        div_le_self (by norm_num) hden
      have hdivpos : 0 < 100 / (1 + gAvg ps i / lAvg ps i) :=
        div_pos (by norm_num) (by linarith)
      subst hq
      refine ⟨by linarith, by linarith, ?_⟩
      constructor
      · intro habs; exfalso; linarith
      · rintro ⟨hla, -⟩
        rw [avgLoss_cell ps i hi, if_neg h14] at hla
        exact absurd (FV.fin.inj (Option.some.inj hla)) hl0

set_option maxRecDepth 100000 in
/-- Witness for `rsi_range_saturation`: on the strictly increasing series
1..15 the RSI at index 14 is the saturated 100. -/
theorem rsi_range_saturation_witness :
    0 ≤ (100:ℚ) ∧ (100:ℚ) ≤ 100 ∧
      ((100:ℚ) = 100 ↔
        (avgLossList (List.map FV.fin
            [1, 2, 3, 4, 5, 6, 7, 8, 9, 10, 11, 12, 13, 14, 15]))[14]? =
          some (FV.fin 0) ∧
        ∃ g, (avgGainList (List.map FV.fin
            [1, 2, 3, 4, 5, 6, 7, 8, 9, 10, 11, 12, 13, 14, 15]))[14]? =
          some (FV.fin g) ∧ 0 < g) :=
  rsi_range_saturation [1, 2, 3, 4, 5, 6, 7, 8, 9, 10, 11, 12, 13, 14, 15] 14 100
    (by with_unfolding_all rfl)

set_option maxRecDepth 100000 in
/-- Claim C3 is false as stated: on the constant series of 15 points the
14-period average loss at index 14 is 0, yet the RSI there is NaN
(`0/0`), not the saturated 100. -/
theorem rsi_flat_nan_cex :
    (avgLossList (List.map FV.fin (List.replicate 15 (100:ℚ))))[14]? = some (FV.fin 0) ∧
      (rsiList (List.map FV.fin (List.replicate 15 (100:ℚ))))[14]? = some FV.nan ∧
      (rsiList (List.map FV.fin (List.replicate 15 (100:ℚ))))[14]? ≠ some (FV.fin 100) := by
  refine ⟨by with_unfolding_all rfl, by with_unfolding_all rfl, fun hc => ?_⟩
  have h2 : (rsiList (List.map FV.fin (List.replicate 15 (100:ℚ))))[14]? = some FV.nan := by
    with_unfolding_all rfl
  rw [h2] at hc
  exact FV.noConfusion (Option.some.inj hc)

/-- Claim C3 (amended): where the 14-period average loss is 0 the RSI
saturates to 100 provided the average gain is positive; when the average
gain is also 0 the cell is NaN (`0/0`); in neither case does the
computation fail. -/
theorem rsi_zero_loss_amended (ps : List ℚ) (i : ℕ)
    (hl : (avgLossList (ps.map FV.fin))[i]? = some (FV.fin 0)) :
    ∃ g, (avgGainList (ps.map FV.fin))[i]? = some (FV.fin g) ∧ 0 ≤ g ∧
      (rsiList (ps.map FV.fin))[i]? = some (if g = 0 then FV.nan else FV.fin 100) := by
  have hi : i < ps.length := by
    by_contra hle
    rw [List.getElem?_eq_none_iff.mpr
      (by simpa [avgLossList_length] using le_of_not_lt hle)] at hl
    exact Option.noConfusion hl
  rw [avgLoss_cell ps i hi] at hl
  by_cases h14 : i + 1 < 14
  · rw [if_pos h14] at hl
    exact absurd (Option.some.inj hl) (by simp)
  · rw [if_neg h14] at hl
    have hl0 : lAvg ps i = 0 := FV.fin.inj (Option.some.inj hl)
    refine ⟨gAvg ps i, ?_, gAvg_nonneg ps i, ?_⟩
    · rw [avgGain_cell ps i hi, if_neg h14]
    · rw [rsiList_cell ps i hi, if_neg h14, if_pos hl0]

set_option maxRecDepth 100000 in
/-- Witness for `rsi_zero_loss_amended` on the series 1..15 at index 14. -/
theorem rsi_zero_loss_amended_witness :
    ∃ g, (avgGainList (List.map FV.fin
        [1, 2, 3, 4, 5, 6, 7, 8, 9, 10, 11, 12, 13, 14, 15]))[14]? =
      some (FV.fin g) ∧ 0 ≤ g ∧
      (rsiList (List.map FV.fin
          [1, 2, 3, 4, 5, 6, 7, 8, 9, 10, 11, 12, 13, 14, 15]))[14]? =
        some (if g = 0 then FV.nan else FV.fin 100) :=
  rsi_zero_loss_amended [1, 2, 3, 4, 5, 6, 7, 8, 9, 10, 11, 12, 13, 14, 15] 14
    (by with_unfolding_all rfl)

/-! ### How `calcular_indicadores` fills the columns -/

theorem calcular_precio (data : DataFrame) (fl : Indicadores) :
    (calcular_indicadores data fl).precio = data.precio := by
  rcases fl with ⟨s, r, m⟩
  cases s <;> cases r <;> cases m <;> simp [calcular_indicadores]

theorem calcular_volumen (data : DataFrame) (fl : Indicadores) :
    (calcular_indicadores data fl).volumen = data.volumen := by
  rcases fl with ⟨s, r, m⟩
  cases s <;> cases r <;> cases m <;> simp [calcular_indicadores]

theorem calcular_sma50 (data : DataFrame) (fl : Indicadores) :
    (calcular_indicadores data fl).sma50 =
      if fl.sma then some (rollingMean 50 data.precio) else data.sma50 := by
  rcases fl with ⟨s, r, m⟩
  cases s <;> cases r <;> cases m <;> simp [calcular_indicadores]

theorem calcular_sma200 (data : DataFrame) (fl : Indicadores) :
    (calcular_indicadores data fl).sma200 =
      if fl.sma then some (rollingMean 200 data.precio) else data.sma200 := by
  rcases fl with ⟨s, r, m⟩
  cases s <;> cases r <;> cases m <;> simp [calcular_indicadores]

theorem calcular_rsi (data : DataFrame) (fl : Indicadores) :
    (calcular_indicadores data fl).rsi =
      if fl.rsi then some (rsiList data.precio) else data.rsi := by
  rcases fl with ⟨s, r, m⟩
  cases s <;> cases r <;> cases m <;> simp [calcular_indicadores]

theorem calcular_macd (data : DataFrame) (fl : Indicadores) :
    (calcular_indicadores data fl).macd =
      if fl.macd then
        some (List.zipWith fsub (ewmList 12 data.precio) (ewmList 26 data.precio))
      else data.macd := by
  rcases fl with ⟨s, r, m⟩
  cases s <;> cases r <;> cases m <;> simp [calcular_indicadores]

theorem calcular_signal (data : DataFrame) (fl : Indicadores) :
    (calcular_indicadores data fl).signal =
      if fl.macd then
        some (ewmList 9 (List.zipWith fsub (ewmList 12 data.precio) (ewmList 26 data.precio)))
      else data.signal := by
  rcases fl with ⟨s, r, m⟩
  cases s <;> cases r <;> cases m <;> simp [calcular_indicadores]

theorem ewmFrom_length (alpha : ℚ) (prev : FV) (xs : List FV) :
    (ewmFrom alpha prev xs).length = xs.length := by
  induction xs generalizing prev with
  | nil => rfl
  | cons x rest ih => simp [ewmFrom, ih]

theorem ewmList_length (n : ℕ) (xs : List FV) : (ewmList n xs).length = xs.length := by
  cases xs <;> simp [ewmList, ewmFrom_length]

/-! ### Claim C5: the SMA columns -/

/-- Claim C5: with the sma flag set on a full-history series, SMA50 and
SMA200 hold, at every index, the mean of the trailing 50 (resp. 200)
prices inclusive of the index once that much history exists, and NaN
(undefined, not zero) before. -/
theorem sma_window_defined (ps : List ℚ) (fl : Indicadores) (hf : fl.sma = true)
    (_hlen : 200 ≤ ps.length) (i : ℕ) (hi : i < ps.length) :
    ∃ c50 c200,
      (calcular_indicadores (mkData ps none) fl).sma50 = some c50 ∧
      (calcular_indicadores (mkData ps none) fl).sma200 = some c200 ∧
      c50[i]? = some (if 49 ≤ i then FV.fin (((ps.drop (i + 1 - 50)).take 50).sum / 50)
        else FV.nan) ∧
      c200[i]? = some (if 199 ≤ i then FV.fin (((ps.drop (i + 1 - 200)).take 200).sum / 200)
        else FV.nan) := by
  refine ⟨rollingMean 50 (ps.map FV.fin), rollingMean 200 (ps.map FV.fin), ?_, ?_, ?_, ?_⟩
  · rw [calcular_sma50, hf]; simp [mkData]
  · rw [calcular_sma200, hf]; simp [mkData]
  · rw [rollingMean_fin_cell 50 (by norm_num) ps i hi]
    by_cases h49 : 49 ≤ i
    · rw [if_neg (by omega), if_pos h49]; norm_num
    · rw [if_pos (by omega), if_neg h49]
  · rw [rollingMean_fin_cell 200 (by norm_num) ps i hi]
    by_cases h199 : 199 ≤ i
    · rw [if_neg (by omega), if_pos h199]; norm_num
    · rw [if_pos (by omega), if_neg h199]

/-- Witness for `sma_window_defined` on a constant series of length 200. -/
theorem sma_window_defined_witness :
    ∃ c50 c200,
      (calcular_indicadores (mkData (List.replicate 200 (1:ℚ)) none)
          ⟨true, false, false⟩).sma50 = some c50 ∧
      (calcular_indicadores (mkData (List.replicate 200 (1:ℚ)) none)
          ⟨true, false, false⟩).sma200 = some c200 ∧
      c50[199]? = some (if 49 ≤ 199 then
        FV.fin ((((List.replicate 200 (1:ℚ)).drop (199 + 1 - 50)).take 50).sum / 50)
        else FV.nan) ∧
      c200[199]? = some (if 199 ≤ 199 then
        FV.fin ((((List.replicate 200 (1:ℚ)).drop (199 + 1 - 200)).take 200).sum / 200)
        else FV.nan) :=
  sma_window_defined (List.replicate 200 (1:ℚ)) ⟨true, false, false⟩ rfl
    (by simp only [List.length_replicate]; omega) 199
    (by simp only [List.length_replicate]; omega)

/-! ### Claim C8: the frame effect of the indicator pass -/

/-- Claim C8: the indicator pass leaves the price and volume columns
unchanged, every derived column it fills has the same index set (length)
as the input series, and cells before a column's minimum history are NaN,
never zero. -/
theorem calcular_frame (ps : List ℚ) (vol : Option (List ℚ)) (fl : Indicadores) :
    (calcular_indicadores (mkData ps vol) fl).precio = ps.map FV.fin ∧
    (calcular_indicadores (mkData ps vol) fl).volumen = vol.map (List.map FV.fin) ∧
    (∀ col, (calcular_indicadores (mkData ps vol) fl).sma50 = some col →
      col.length = ps.length ∧ ∀ i, i < ps.length → i < 49 → col[i]? = some FV.nan) ∧
    (∀ col, (calcular_indicadores (mkData ps vol) fl).sma200 = some col →
      col.length = ps.length ∧ ∀ i, i < ps.length → i < 199 → col[i]? = some FV.nan) ∧
    (∀ col, (calcular_indicadores (mkData ps vol) fl).rsi = some col →
      col.length = ps.length ∧ ∀ i, i < ps.length → i < 13 → col[i]? = some FV.nan) ∧
    (∀ col, (calcular_indicadores (mkData ps vol) fl).macd = some col →
      col.length = ps.length) ∧
    (∀ col, (calcular_indicadores (mkData ps vol) fl).signal = some col →
      col.length = ps.length) := by
  refine ⟨?_, ?_, ?_, ?_, ?_, ?_, ?_⟩
  · rw [calcular_precio]; rfl
  · rw [calcular_volumen]; rfl
  · intro col hc
    rw [calcular_sma50] at hc
    cases hfs : fl.sma <;> rw [hfs] at hc
    · simp [mkData] at hc
    · simp [mkData] at hc
      subst hc
      refine ⟨by simp [rollingMean_length], fun i hi hsm => ?_⟩
      rw [rollingMean_fin_cell 50 (by norm_num) ps i hi, if_pos (by omega)]
  · intro col hc
    rw [calcular_sma200] at hc
    cases hfs : fl.sma <;> rw [hfs] at hc
    · simp [mkData] at hc
    · simp [mkData] at hc
      subst hc
      refine ⟨by simp [rollingMean_length], fun i hi hsm => ?_⟩
      rw [rollingMean_fin_cell 200 (by norm_num) ps i hi, if_pos (by omega)]
  · intro col hc
    rw [calcular_rsi] at hc
    cases hfr : fl.rsi <;> rw [hfr] at hc
    · simp [mkData] at hc
    · simp [mkData] at hc
      subst hc
      refine ⟨by simp [rsiList_length], fun i hi hsm => ?_⟩
      rw [rsiList_cell ps i hi, if_pos (by omega)]
  · intro col hc
    rw [calcular_macd] at hc
    cases hfm : fl.macd <;> rw [hfm] at hc
    · simp [mkData] at hc
    · simp [mkData] at hc
      subst hc
      simp [ewmList_length]
  · intro col hc
    rw [calcular_signal] at hc
    cases hfm : fl.macd <;> rw [hfm] at hc
    · simp [mkData] at hc
    · simp [mkData] at hc
      subst hc
      simp [ewmList_length]

/-- Witness for `calcular_frame` at a concrete two-point series. -/
theorem calcular_frame_witness :
    (calcular_indicadores (mkData [1, 2] none) ⟨true, true, true⟩).precio =
        List.map FV.fin [1, 2] ∧
      (rollingMean 50 (List.map FV.fin [(1:ℚ), 2])).length = 2 ∧
      (rollingMean 50 (List.map FV.fin [(1:ℚ), 2]))[0]? = some FV.nan := by
  obtain ⟨hp, -, h50, -, -, -, -⟩ := calcular_frame [1, 2] none ⟨true, true, true⟩
  obtain ⟨hlen, hcell⟩ :=
    h50 (rollingMean 50 (List.map FV.fin [(1:ℚ), 2])) (by with_unfolding_all rfl)
  exact ⟨hp, by simpa using hlen, hcell 0 (by norm_num) (by norm_num)⟩

/-! ### The fallback path of the recommendation engine -/

theorem generar_none_helper (data : DataFrame)
    (h : data.precio.getLast? = none ∨ lastCol data.sma50 = none ∨
      lastCol data.sma200 = none ∨ lastCol data.rsi = none) :
    generar_recomendacion data =
      ("MANTENER", "hold", ["Faltan indicadores para generar una recomendación."]) := by
  unfold generar_recomendacion
  rcases hp : data.precio.getLast? with _ | p <;>
    rcases h50 : lastCol data.sma50 with _ | a <;>
      rcases h200 : lastCol data.sma200 with _ | b <;>
        rcases hr : lastCol data.rsi with _ | d <;>
          simp_all

/-- Claim C9: whenever extracting the latest Price, SMA50, SMA200 or RSI
fails — an absent column or an empty series, the empty series included —
the bare except returns the HOLD fallback with the single
insufficient-indicators reason rather than raising. -/
theorem recomendacion_fallback_total (data : DataFrame)
    (h : data.precio.getLast? = none ∨ lastCol data.sma50 = none ∨
      lastCol data.sma200 = none ∨ lastCol data.rsi = none) :
    generar_recomendacion data =
      ("MANTENER", "hold", ["Faltan indicadores para generar una recomendación."]) :=
  generar_none_helper data h

/-- Witness for `recomendacion_fallback_total` at the empty series. -/
theorem recomendacion_fallback_total_witness :
    generar_recomendacion (mkData [] none) =
      ("MANTENER", "hold", ["Faltan indicadores para generar una recomendación."]) :=
  recomendacion_fallback_total (mkData [] none) (Or.inl rfl)

/-! ### Claim C2: the scoring table against the spec -/

/-- The score of the specification's rule table: six independent deltas
summed from 0 (spec side of claim C2, worded from the spec). -/
def specScore (p s50 s200 r : ℚ) : ℤ :=
  (if p > s200 ∧ s50 > s200 then 1 else 0) + (if p < s200 ∧ s50 < s200 then -1 else 0)
    + (if s50 > s200 then 1 else 0) + (if s50 < s200 then -1 else 0)
    + (if r > 70 then -1 else 0) + (if r < 30 then 1 else 0)

/-- The reason list of the specification's rule table, in table order
(spec side of claim C2, worded from the spec). -/
def specReasons (p s50 s200 r : ℚ) : List String :=
  (if p > s200 ∧ s50 > s200 then ["Tendencia alcista (Precio > SMA200 > SMA50)"] else [])
    ++ (if p < s200 ∧ s50 < s200 then ["Tendencia bajista (Precio < SMA200 < SMA50)"] else [])
    ++ (if s50 > s200 then ["Golden Cross (SMA50 > SMA200)"] else [])
    ++ (if s50 < s200 then ["Death Cross (SMA50 < SMA200)"] else [])
    ++ (if r > 70 then ["RSI alto (>70) - posible sobrecompra"] else [])
    ++ (if r < 30 then ["RSI bajo (<30) - posible sobreventa"] else [])

theorem puntuar_fin (p s50 s200 r : ℚ) :
    puntuar (FV.fin p) (FV.fin s50) (FV.fin s200) (FV.fin r) =
      (specReasons p s50 s200 r, specScore p s50 s200 r) := by
  unfold puntuar specReasons specScore
  simp only [fgt_fin, flt_fin, Bool.and_eq_true, decide_eq_true_eq]
  by_cases h1 : s200 < p <;> by_cases h2 : s200 < s50 <;> by_cases h3 : p < s200 <;>
    by_cases h4 : s50 < s200 <;> by_cases h5 : 70 < r <;> by_cases h6 : r < 30 <;>
    first
      | (exfalso; linarith)
      | (simp [h1, h2, h3, h4, h5, h6]; try norm_num)

/-- Claim C2: when the four latest values are all defined, the verdict
and reasons of the engine agree with the specification's table: score
from the six strict-inequality deltas, reasons appended in table order
(ties fire nothing), BUY iff score ≥ 2, SELL iff score ≤ −2, HOLD
otherwise, with the reason list returned verbatim in every case. -/
theorem generar_recomendacion_spec (data : DataFrame) (p s50 s200 r : ℚ)
    (hp : data.precio.getLast? = some (FV.fin p))
    (h50 : lastCol data.sma50 = some (FV.fin s50))
    (h200 : lastCol data.sma200 = some (FV.fin s200))
    (hr : lastCol data.rsi = some (FV.fin r)) :
    generar_recomendacion data =
      if 2 ≤ specScore p s50 s200 r then ("COMPRA", "buy", specReasons p s50 s200 r)
      else if specScore p s50 s200 r ≤ -2 then ("VENTA", "sell", specReasons p s50 s200 r)
      else ("MANTENER", "hold", specReasons p s50 s200 r) := by
  unfold generar_recomendacion
  rw [hp, h50, h200, hr]
  simp only [puntuar_fin, ge_iff_le]

/-- Witness for `generar_recomendacion_spec` at a bullish data frame. -/
theorem generar_recomendacion_spec_witness :
    generar_recomendacion
        { precio := [FV.fin 10], volumen := none, sma50 := some [FV.fin 5],
          sma200 := some [FV.fin 4], rsi := some [FV.fin 50], macd := none,
          signal := none } =
      if 2 ≤ specScore 10 5 4 50 then ("COMPRA", "buy", specReasons 10 5 4 50)
      else if specScore 10 5 4 50 ≤ -2 then ("VENTA", "sell", specReasons 10 5 4 50)
      else ("MANTENER", "hold", specReasons 10 5 4 50) :=
  generar_recomendacion_spec _ 10 5 4 50 rfl rfl rfl rfl

/-! ### Claim C10: invariants of the scoring path -/

theorem puntuar_parts (p s50 s200 r : FV) :
    -3 ≤ (puntuar p s50 s200 r).2 ∧ (puntuar p s50 s200 r).2 ≤ 3 ∧
      (puntuar p s50 s200 r).1.length ≤ 3 ∧
      (puntuar p s50 s200 r).2.natAbs ≤ (puntuar p s50 s200 r).1.length := by
  unfold puntuar
  split_ifs <;> simp

/-- Claim C10: whenever the scoring path runs, the score stays in
[−3, 3], at most one condition fires per rule group so at most 3 reasons
accumulate, and a BUY or SELL verdict always carries at least 2 reasons. -/
theorem puntuar_bounds (data : DataFrame) (p s50 s200 r : FV)
    (hp : data.precio.getLast? = some p) (h50 : lastCol data.sma50 = some s50)
    (h200 : lastCol data.sma200 = some s200) (hr : lastCol data.rsi = some r) :
    -3 ≤ (puntuar p s50 s200 r).2 ∧ (puntuar p s50 s200 r).2 ≤ 3 ∧
      (puntuar p s50 s200 r).1.length ≤ 3 ∧
      ((generar_recomendacion data).2.1 = "buy" ∨
          (generar_recomendacion data).2.1 = "sell" →
        2 ≤ (generar_recomendacion data).2.2.length) := by
  obtain ⟨hb1, hb2, hb3, habs⟩ := puntuar_parts p s50 s200 r
  refine ⟨hb1, hb2, hb3, ?_⟩
  unfold generar_recomendacion
  rw [hp, h50, h200, hr]
  simp only []
  by_cases hge : (puntuar p s50 s200 r).2 ≥ 2
  · rw [if_pos hge]
    intro _
    exact le_trans (by omega : 2 ≤ (puntuar p s50 s200 r).2.natAbs) habs
  · rw [if_neg hge]
    by_cases hle : (puntuar p s50 s200 r).2 ≤ -2
    · rw [if_pos hle]
      intro _
      exact le_trans (by omega : 2 ≤ (puntuar p s50 s200 r).2.natAbs) habs
    · rw [if_neg hle]
      rintro (hbad | hbad) <;> simp at hbad

/-- Witness for `puntuar_bounds` at a data frame on the scoring path. -/
theorem puntuar_bounds_witness :
    -3 ≤ (puntuar (FV.fin 20) (FV.fin 10) (FV.fin 5) (FV.fin 50)).2 ∧
      (puntuar (FV.fin 20) (FV.fin 10) (FV.fin 5) (FV.fin 50)).2 ≤ 3 ∧
      (puntuar (FV.fin 20) (FV.fin 10) (FV.fin 5) (FV.fin 50)).1.length ≤ 3 ∧
      ((generar_recomendacion
            { precio := [FV.fin 20], volumen := none, sma50 := some [FV.fin 10],
              sma200 := some [FV.fin 5], rsi := some [FV.fin 50], macd := none,
              signal := none }).2.1 = "buy" ∨
          (generar_recomendacion
            { precio := [FV.fin 20], volumen := none, sma50 := some [FV.fin 10],
              sma200 := some [FV.fin 5], rsi := some [FV.fin 50], macd := none,
              signal := none }).2.1 = "sell" →
        2 ≤ (generar_recomendacion
            { precio := [FV.fin 20], volumen := none, sma50 := some [FV.fin 10],
              sma200 := some [FV.fin 5], rsi := some [FV.fin 50], macd := none,
              signal := none }).2.2.length) :=
  puntuar_bounds _ (FV.fin 20) (FV.fin 10) (FV.fin 5) (FV.fin 50) rfl rfl rfl rfl

/-! ### Claim C1: the insufficient-indicators fallback -/

/-- Claim C1 is false as stated: on the 10-point series with the sma and
rsi flags set all four columns exist but SMA50, SMA200 and RSI are NaN at
the latest point; no exception fires, every comparison against NaN is
false, and the engine returns HOLD with an empty reason list rather than
the single insufficient-indicators reason. -/
theorem recomendacion_len10_cex :
    generar_recomendacion
        (calcular_indicadores (mkData [1, 2, 3, 4, 5, 6, 7, 8, 9, 10] none)
          ⟨true, true, false⟩) = ("MANTENER", "hold", []) ∧
      generar_recomendacion
          (calcular_indicadores (mkData [1, 2, 3, 4, 5, 6, 7, 8, 9, 10] none)
            ⟨true, true, false⟩) ≠
        ("MANTENER", "hold", ["Faltan indicadores para generar una recomendación."]) := by
  have h1 : generar_recomendacion
      (calcular_indicadores (mkData [1, 2, 3, 4, 5, 6, 7, 8, 9, 10] none)
        ⟨true, true, false⟩) = ("MANTENER", "hold", []) := by decide
  exact ⟨h1, by rw [h1]; decide⟩

theorem fgt_nan_right (p : FV) : fgt p FV.nan = false := by cases p <;> rfl

theorem flt_nan_right (p : FV) : flt p FV.nan = false := by cases p <;> rfl

theorem puntuar_nan_rest (p : FV) : puntuar p FV.nan FV.nan FV.nan = ([], 0) := by
  cases p <;> rfl

/-- Claim C1 (amended): for a 10-point series with the sma flag set, if
the rsi flag is off the RSI column is absent, the extraction fails, and
the engine returns HOLD with exactly the single insufficient-indicators
reason; if the rsi flag is also set, every column exists, the NaN latest
values compare false, and the engine returns HOLD with an empty reason
list instead. -/
theorem recomendacion_len10_amended (ps : List ℚ) (h10 : ps.length = 10) :
    generar_recomendacion (calcular_indicadores (mkData ps none) ⟨true, false, false⟩) =
      ("MANTENER", "hold", ["Faltan indicadores para generar una recomendación."]) ∧
    generar_recomendacion (calcular_indicadores (mkData ps none) ⟨true, true, false⟩) =
      ("MANTENER", "hold", []) := by
  constructor
  · apply generar_none_helper
    right; right; right
    rw [calcular_rsi]
    simp [mkData, lastCol]
  · have h9 : 9 < ps.length := by omega
    have hp : (calcular_indicadores (mkData ps none) ⟨true, true, false⟩).precio.getLast? =
        some (FV.fin (ps.getD 9 0)) := by
      rw [calcular_precio]
      show (ps.map FV.fin).getLast? = _
      rw [List.getLast?_eq_getElem?, List.length_map, h10]
      show (ps.map FV.fin)[9]? = _
      rw [List.getElem?_map, List.getElem?_eq_getElem h9]
      simp [List.getD_eq_getElem?_getD, List.getElem?_eq_getElem h9]
    have h50 : lastCol (calcular_indicadores (mkData ps none) ⟨true, true, false⟩).sma50 =
        some FV.nan := by
      rw [calcular_sma50]
      show (rollingMean 50 (ps.map FV.fin)).getLast? = some FV.nan
      rw [List.getLast?_eq_getElem?, rollingMean_length, List.length_map, h10]
      show (rollingMean 50 (ps.map FV.fin))[9]? = some FV.nan
      rw [rollingMean_cell 50 _ 9 (by simp [h10])]
      rfl
    have h200 : lastCol (calcular_indicadores (mkData ps none) ⟨true, true, false⟩).sma200 =
        some FV.nan := by
      rw [calcular_sma200]
      show (rollingMean 200 (ps.map FV.fin)).getLast? = some FV.nan
      rw [List.getLast?_eq_getElem?, rollingMean_length, List.length_map, h10]
      show (rollingMean 200 (ps.map FV.fin))[9]? = some FV.nan
      rw [rollingMean_cell 200 _ 9 (by simp [h10])]
      rfl
    have hr : lastCol (calcular_indicadores (mkData ps none) ⟨true, true, false⟩).rsi =
        some FV.nan := by
      rw [calcular_rsi]
      show (rsiList (ps.map FV.fin)).getLast? = some FV.nan
      rw [List.getLast?_eq_getElem?, rsiList_length, List.length_map, h10]
      show (rsiList (ps.map FV.fin))[9]? = some FV.nan
      rw [rsiList_cell ps 9 h9]
      rfl
    unfold generar_recomendacion
    rw [hp, h50, h200, hr]
    simp [puntuar_nan_rest]

/-- Witness for `recomendacion_len10_amended` at the series 1..10. -/
theorem recomendacion_len10_amended_witness :
    generar_recomendacion
        (calcular_indicadores (mkData [1, 2, 3, 4, 5, 6, 7, 8, 9, 10] none)
          ⟨true, false, false⟩) =
      ("MANTENER", "hold", ["Faltan indicadores para generar una recomendación."]) ∧
    generar_recomendacion
        (calcular_indicadores (mkData [1, 2, 3, 4, 5, 6, 7, 8, 9, 10] none)
          ⟨true, true, false⟩) =
      ("MANTENER", "hold", []) :=
  recomendacion_len10_amended [1, 2, 3, 4, 5, 6, 7, 8, 9, 10] (by decide)

/-! ### Claim C6: MACD and the EMA recursion -/

/-- The EMA recursion exactly as the specification words it, after the
seed: `ema[i] = alpha * price[i] + (1 - alpha) * ema[i-1]` (spec side of
claim C6). -/
def specEmaFrom (alpha : ℚ) : ℚ → List ℚ → List ℚ
  | _, [] => []
  | prev, x :: rest =>
      (alpha * x + (1 - alpha) * prev) :: specEmaFrom alpha (alpha * x + (1 - alpha) * prev) rest

/-- The EMA as the specification words it: seeded with the first price,
no bias correction (spec side of claim C6). -/
def specEma (alpha : ℚ) : List ℚ → List ℚ
  | [] => []
  | x :: rest => x :: specEmaFrom alpha x rest

/-- MACD as the specification words it: `EMA12 − EMA26` pointwise, with
`alpha = 2/(N+1)` (spec side of claim C6). -/
def macdQ (ps : List ℚ) : List ℚ :=
  List.zipWith (fun a b => a - b)
    (specEma (2 / (12 + 1 : ℚ)) ps) (specEma (2 / (26 + 1 : ℚ)) ps)

theorem ewmFrom_map_fin (alpha : ℚ) (prev : ℚ) (qs : List ℚ) :
    ewmFrom alpha (FV.fin prev) (qs.map FV.fin) = (specEmaFrom alpha prev qs).map FV.fin := by
  induction qs generalizing prev with
  | nil => rfl
  | cons x rest ih => simp [ewmFrom, specEmaFrom, fmul, fadd, ih]

theorem ewmList_map_fin (n : ℕ) (qs : List ℚ) :
    ewmList n (qs.map FV.fin) = (specEma (2 / (n + 1 : ℚ)) qs).map FV.fin := by
  cases qs with
  | nil => rfl
  | cons x rest => simp [ewmList, specEma, ewmFrom_map_fin]

theorem zipWith_fsub_map_fin (as bs : List ℚ) :
    List.zipWith fsub (as.map FV.fin) (bs.map FV.fin) =
      (List.zipWith (fun a b => a - b) as bs).map FV.fin := by
  induction as generalizing bs with
  | nil => rfl
  | cons a as ih =>
    cases bs with
    | nil => rfl
    | cons b bs => simp [fsub_fin, ih]

/-- Claim C6: with the macd flag set on a nonempty series, the MACD
column is EMA12 − EMA26 under the spec's seeded, uncorrected recursion
with `alpha = 2/(N+1)`, the Signal column is the 9-period EMA of MACD
under the same recursion, and hence MACD[0] = 0 and Signal[0] = MACD[0]. -/
theorem macd_ema_spec (ps : List ℚ) (fl : Indicadores) (hf : fl.macd = true)
    (hne : ps ≠ []) :
    ∃ m sg,
      (calcular_indicadores (mkData ps none) fl).macd = some m ∧
      (calcular_indicadores (mkData ps none) fl).signal = some sg ∧
      m = (macdQ ps).map FV.fin ∧
      sg = (specEma (2 / (9 + 1 : ℚ)) (macdQ ps)).map FV.fin ∧
      m[0]? = some (FV.fin 0) ∧ sg[0]? = m[0]? := by
  have hm : (calcular_indicadores (mkData ps none) fl).macd =
      some ((macdQ ps).map FV.fin) := by
    rw [calcular_macd, hf]
    show some (List.zipWith fsub (ewmList 12 (ps.map FV.fin))
      (ewmList 26 (ps.map FV.fin))) = _
    rw [ewmList_map_fin, ewmList_map_fin, zipWith_fsub_map_fin]
    rfl
  have hs : (calcular_indicadores (mkData ps none) fl).signal =
      some ((specEma (2 / (9 + 1 : ℚ)) (macdQ ps)).map FV.fin) := by
    rw [calcular_signal, hf]
    show some (ewmList 9 (List.zipWith fsub (ewmList 12 (ps.map FV.fin))
      (ewmList 26 (ps.map FV.fin)))) = _
    rw [ewmList_map_fin, ewmList_map_fin, zipWith_fsub_map_fin, ewmList_map_fin]
    rfl
  rcases ps with _ | ⟨p, rest⟩
  · exact absurd rfl hne
  refine ⟨(macdQ (p :: rest)).map FV.fin,
    (specEma (2 / (9 + 1 : ℚ)) (macdQ (p :: rest))).map FV.fin, hm, hs, rfl, rfl, ?_, ?_⟩
  · simp [macdQ, specEma, sub_self]
  · simp [macdQ, specEma]

/-- Witness for `macd_ema_spec` at a concrete two-point series. -/
theorem macd_ema_spec_witness :
    ∃ m sg,
      (calcular_indicadores (mkData [5, 7] none) ⟨false, false, true⟩).macd = some m ∧
      (calcular_indicadores (mkData [5, 7] none) ⟨false, false, true⟩).signal = some sg ∧
      m = (macdQ [5, 7]).map FV.fin ∧
      sg = (specEma (2 / (9 + 1 : ℚ)) (macdQ [5, 7])).map FV.fin ∧
      m[0]? = some (FV.fin 0) ∧ sg[0]? = m[0]? :=
  macd_ema_spec [5, 7] ⟨false, false, true⟩ rfl (by simp)

/-! ### Claim C7: the flat 250-point scenario -/

set_option maxRecDepth 1000000 in
/-- Claim C7 is false as stated: on the price series constant at 100 for
250 points (sma and rsi flags set) the verdict is HOLD with an empty
reason list — the RSI is NaN through the 0/0 path, so the overbought
reason never fires and the score is 0, not −1. -/
theorem flat250_cex :
    generar_recomendacion
        (calcular_indicadores (mkData (List.replicate 250 (100:ℚ)) none)
          ⟨true, true, false⟩) = ("MANTENER", "hold", []) ∧
      generar_recomendacion
          (calcular_indicadores (mkData (List.replicate 250 (100:ℚ)) none)
            ⟨true, true, false⟩) ≠
        ("MANTENER", "hold", ["RSI alto (>70) - posible sobrecompra"]) := by
  have h1 : generar_recomendacion
      (calcular_indicadores (mkData (List.replicate 250 (100:ℚ)) none)
        ⟨true, true, false⟩) = ("MANTENER", "hold", []) := by
    with_unfolding_all rfl
  exact ⟨h1, by rw [h1]; decide⟩

set_option maxRecDepth 1000000 in
/-- Claim C7 (amended): on the flat 250-point series SMA50 and SMA200 at
index 249 are both 100, the RSI at index 249 is NaN via the 0/0 path, no
condition fires, the score is 0, and the verdict is HOLD with an empty
reason list. -/
theorem flat250_amended :
    ((calcular_indicadores (mkData (List.replicate 250 (100:ℚ)) none)
          ⟨true, true, false⟩).sma50.map fun col => col[249]?) =
        some (some (FV.fin 100)) ∧
      ((calcular_indicadores (mkData (List.replicate 250 (100:ℚ)) none)
          ⟨true, true, false⟩).sma200.map fun col => col[249]?) =
        some (some (FV.fin 100)) ∧
      ((calcular_indicadores (mkData (List.replicate 250 (100:ℚ)) none)
          ⟨true, true, false⟩).rsi.map fun col => col[249]?) =
        some (some FV.nan) ∧
      generar_recomendacion
          (calcular_indicadores (mkData (List.replicate 250 (100:ℚ)) none)
            ⟨true, true, false⟩) = ("MANTENER", "hold", []) := by
  refine ⟨?_, ?_, ?_, ?_⟩ <;> with_unfolding_all rfl
